import Mathlib

/-!
Shallow embedding of `src/optimize/scalar/bracket.rs` from the mathslib
repository: the `Bracket` data structure, its validated constructors, the
bracket-update rule `longer_bound`, the trial-point selectors
(`new_val_from_ratio`, `parabolic_interpolation`) and the three iterative
minimizers (`bracket_ratio_minimize`, `bracket_gr_minimize`,
`bracket_pi_minimize`).

The Rust code is generic over `T: Float`; we embed it over an arbitrary
`LinearOrderedField` (exact arithmetic), instantiating at `ℚ` for concrete
evaluations and at `ℝ` for the golden-ratio constant `(√5+1)/2`.
The `for _ in 0..max_iter` loops become structural recursion on a `Nat`
fuel argument; Rust's `Result` becomes `Except`.
-/

namespace Mathslib

section Embedding

variable {α : Type*} [LinearOrderedField α]

/-- `num_traits::abs`, the absolute value used by the minimizer loops. -/
def sabs (x : α) : α := if x < 0 then -x else x

/-- The six-field bracket struct, field order as in the Rust source:
`left, f_left, right, f_right, center, f_center`. -/
structure Bracket (α : Type*) where
  left : α
  f_left : α
  right : α
  f_right : α
  center : α
  f_center : α
deriving DecidableEq, Repr

/-- `BracketError` from the Rust source. -/
inductive BracketError where
  | DupeBoundForBracket
  | BracketNotADip
deriving DecidableEq, Repr

/-- `Bracket::new_processed`: validate a pre-computed sextuple.  Checks the
duplicate-bound condition first, then the dip condition; it performs no
ordering check beyond `left ≠ center` and `center ≠ right`. -/
def Bracket.new_processed (left f_left center f_center right f_right : α) :
    Except BracketError (Bracket α) :=
  if left = center ∨ center = right then
    .error .DupeBoundForBracket
  else if ¬ (f_center < f_left ∧ f_center < f_right) then
    .error .BracketNotADip
  else
    .ok ⟨left, f_left, right, f_right, center, f_center⟩

/-- Sorting of the three raw abscissas performed by `Bracket::new`
(`elements.sort_by(partial_cmp … )` on a 3-element array): returns the same
three values in ascending order. -/
def sort3 (x1 x2 x3 : α) : α × α × α :=
  if x1 ≤ x2 then
    if x2 ≤ x3 then (x1, x2, x3)
    else if x1 ≤ x3 then (x1, x3, x2)
    else (x3, x1, x2)
  else
    if x1 ≤ x3 then (x2, x1, x3)
    else if x2 ≤ x3 then (x2, x3, x1)
    else (x3, x2, x1)

/-- `Bracket::new`: sort the three abscissas, evaluate `func` at each, and
delegate to `new_processed`. -/
def Bracket.new (x1 x2 x3 : α) (func : α → α) : Except BracketError (Bracket α) :=
  let s := sort3 x1 x2 x3
  Bracket.new_processed s.1 (func s.1) s.2.1 (func s.2.1) s.2.2 (func s.2.2)

/-- `Bracket::longer_bound`: evaluate `func` at the trial abscissa `new_val`
and fold the pair into a new bracket, branching on whether the new value is
below the center value and whether the new abscissa is left of the center. -/
def Bracket.longer_bound (self : Bracket α) (func : α → α) (new_val : α) :
    Except BracketError (Bracket α) :=
  let f_new_val := func new_val
  if f_new_val < self.f_center ∧ new_val < self.center then
    Bracket.new_processed self.left self.f_left new_val f_new_val self.center self.f_center
  else if f_new_val > self.f_center ∧ new_val < self.center then
    Bracket.new_processed new_val f_new_val self.center self.f_center self.right self.f_right
  else if f_new_val < self.f_center ∧ new_val > self.center then
    Bracket.new_processed self.center self.f_center new_val f_new_val self.right self.f_right
  else
    Bracket.new_processed self.left self.f_left self.center self.f_center new_val f_new_val

/-- `Bracket::new_val_from_ratio`: split the wider sub-interval at offset
`width / ratio` from its outer edge. -/
def Bracket.new_val_from_ratio (self : Bracket α) (r : α) : α :=
  if self.right - self.center > self.center - self.left then
    self.right - (self.right - self.center) / r
  else
    self.left + (self.center - self.left) / r

/-- `Bracket::parabolic_interpolation`: the closed-form vertex abscissa of
the parabola through the three `(x, f x)` points. -/
def Bracket.parabolic_interpolation (self : Bracket α) : α :=
  ((self.f_right - self.f_center) * (self.center ^ 2 - self.left ^ 2)
      + (self.f_left - self.f_center) * (self.right ^ 2 - self.center ^ 2))
    / (2 * ((self.f_right - self.f_center) * (self.center - self.left)
      + (self.f_left - self.f_center) * (self.right - self.center)))

/-- `BracketRatioOptimizerError` from the Rust source. -/
inductive BracketRatioOptimizerError where
  | BracketError (source : BracketError)
  | InvalidRatio
  | InvalidTolerance
deriving DecidableEq, Repr

/-- `single_bracket_minimize`: reject `ratio < 1`, otherwise fold the
ratio-split trial point into the bracket. -/
def single_bracket_minimize (func : α → α) (bounds : Bracket α) (r : α) :
    Except BracketRatioOptimizerError (Bracket α) :=
  if r < 1 then .error .InvalidRatio
  else
    match bounds.longer_bound func (bounds.new_val_from_ratio r) with
    | .ok b => .ok b
    | .error e => .error (.BracketError e)

/-- The `for _ in 0..max_iter` loop body of `bracket_ratio_minimize`:
on a structural bracket error, break with the current center; on any other
error, return it; otherwise test `abs(old_val - f_center) < tolerance` and
either stop or continue with `old_val := bounds.center` (the abscissa, as
the source writes it). -/
def ratioLoop (func : α → α) (r tolerance : α) :
    Nat → Bracket α → α → Except BracketRatioOptimizerError α
  | 0, bounds, _ => .ok bounds.center
  | n + 1, bounds, old_val =>
    match single_bracket_minimize func bounds r with
    | .error (.BracketError _) => .ok bounds.center
    | .error e => .error e
    | .ok b =>
      if sabs (old_val - b.f_center) < tolerance then .ok b.center
      else ratioLoop func r tolerance n b b.center

/-- `bracket_ratio_minimize`: validate the tolerance, build the initial
bracket, and run the loop with `old_val` initialized to
`f_center + tolerance`. -/
def bracket_ratio_minimize (func : α → α) (x1 x2 x3 r tolerance : α)
    (max_iter : Nat) : Except BracketRatioOptimizerError α :=
  if tolerance < 0 then .error .InvalidTolerance
  else
    match Bracket.new x1 x2 x3 func with
    | .error e => .error (.BracketError e)
    | .ok bounds => ratioLoop func r tolerance max_iter bounds (bounds.f_center + tolerance)

/-- `bracket_gr_minimize`: delegate to `bracket_ratio_minimize` with the
golden ratio `(√5 + 1) / 2` (the Rust source computes
`T::from_f64((5.0.pow(0.5) + 1.0) / 2.0)`, embedded here as the exact real
constant). -/
noncomputable def bracket_gr_minimize (func : ℝ → ℝ) (x1 x2 x3 tolerance : ℝ)
    (max_iter : Nat) : Except BracketRatioOptimizerError ℝ :=
  bracket_ratio_minimize func x1 x2 x3 ((Real.sqrt 5 + 1) / 2) tolerance max_iter

/-- The free function `parabolic_interpolation`: build a bracket from the
three raw abscissas and return the parabola-vertex abscissa. -/
def parabolic_interpolation (func : α → α) (x1 x2 x3 : α) :
    Except BracketError α :=
  match Bracket.new x1 x2 x3 func with
  | .error e => .error e
  | .ok b => .ok b.parabolic_interpolation

/-- `BracketPIOptimizerError` from the Rust source. -/
inductive BracketPIOptimizerError where
  | BracketError (source : BracketError)
  | InvalidTolerance
  | DeadEnd
deriving DecidableEq, Repr

/-- The `for _ in 0..max_iter` loop body of `bracket_pi_minimize`: fold the
parabolic-interpolation trial point (a structural error propagates), then
check the dead-end condition `old_val == f_center` before the tolerance
check, and continue with `old_val := bounds.center` (the abscissa, as the
source writes it). -/
def piLoop (func : α → α) (tolerance : α) :
    Nat → Bracket α → α → Except BracketPIOptimizerError α
  | 0, bounds, _ => .ok bounds.center
  | n + 1, bounds, old_val =>
    match bounds.longer_bound func bounds.parabolic_interpolation with
    | .error e => .error (.BracketError e)
    | .ok b =>
      if old_val = b.f_center then .error .DeadEnd
      else if sabs (old_val - b.f_center) < tolerance then .ok b.center
      else piLoop func tolerance n b b.center

/-- `bracket_pi_minimize`: validate the tolerance, build the initial
bracket, and run the parabolic-interpolation loop with `old_val`
initialized to `f_center + tolerance`. -/
def bracket_pi_minimize (func : α → α) (x1 x2 x3 tolerance : α)
    (max_iter : Nat) : Except BracketPIOptimizerError α :=
  if tolerance < 0 then .error .InvalidTolerance
  else
    match Bracket.new x1 x2 x3 func with
    | .error e => .error (.BracketError e)
    | .ok bounds => piLoop func tolerance max_iter bounds (bounds.f_center + tolerance)

/-!
Call-logging variants of the same functions: identical control flow, but
each also returns the list of arguments at which the objective function is
evaluated, in call order.  `Bracket::new` evaluates `func` once at each
sorted abscissa; `Bracket::longer_bound` evaluates it exactly once, at the
trial abscissa; `new_val_from_ratio` and `parabolic_interpolation` never
evaluate it.
-/

/-- Logging variant of `Bracket::new`. -/
def Bracket.newL (x1 x2 x3 : α) (func : α → α) :
    Except BracketError (Bracket α) × List α :=
  let s := sort3 x1 x2 x3
  (Bracket.new_processed s.1 (func s.1) s.2.1 (func s.2.1) s.2.2 (func s.2.2),
    [s.1, s.2.1, s.2.2])

/-- Logging variant of `Bracket::longer_bound`. -/
def Bracket.longer_boundL (self : Bracket α) (func : α → α) (new_val : α) :
    Except BracketError (Bracket α) × List α :=
  (self.longer_bound func new_val, [new_val])

/-- Logging variant of `single_bracket_minimize`. -/
def single_bracket_minimizeL (func : α → α) (bounds : Bracket α) (r : α) :
    Except BracketRatioOptimizerError (Bracket α) × List α :=
  if r < 1 then (.error .InvalidRatio, [])
  else
    match Bracket.longer_boundL bounds func (bounds.new_val_from_ratio r) with
    | (.ok b, log) => (.ok b, log)
    | (.error e, log) => (.error (.BracketError e), log)

/-- Logging variant of the `bracket_ratio_minimize` loop. -/
def ratioLoopL (func : α → α) (r tolerance : α) :
    Nat → Bracket α → α → Except BracketRatioOptimizerError α × List α
  | 0, bounds, _ => (.ok bounds.center, [])
  | n + 1, bounds, old_val =>
    match single_bracket_minimizeL func bounds r with
    | (.error (.BracketError _), log) => (.ok bounds.center, log)
    | (.error e, log) => (.error e, log)
    | (.ok b, log) =>
      if sabs (old_val - b.f_center) < tolerance then (.ok b.center, log)
      else
        let rest := ratioLoopL func r tolerance n b b.center
        (rest.1, log ++ rest.2)

/-- Logging variant of `bracket_ratio_minimize`. -/
def bracket_ratio_minimizeL (func : α → α) (x1 x2 x3 r tolerance : α)
    (max_iter : Nat) : Except BracketRatioOptimizerError α × List α :=
  if tolerance < 0 then (.error .InvalidTolerance, [])
  else
    match Bracket.newL x1 x2 x3 func with
    | (.error e, log) => (.error (.BracketError e), log)
    | (.ok bounds, log) =>
      let rest := ratioLoopL func r tolerance max_iter bounds (bounds.f_center + tolerance)
      (rest.1, log ++ rest.2)

/-- Logging variant of the `bracket_pi_minimize` loop. -/
def piLoopL (func : α → α) (tolerance : α) :
    Nat → Bracket α → α → Except BracketPIOptimizerError α × List α
  | 0, bounds, _ => (.ok bounds.center, [])
  | n + 1, bounds, old_val =>
    match Bracket.longer_boundL bounds func bounds.parabolic_interpolation with
    | (.error e, log) => (.error (.BracketError e), log)
    | (.ok b, log) =>
      if old_val = b.f_center then (.error .DeadEnd, log)
      else if sabs (old_val - b.f_center) < tolerance then (.ok b.center, log)
      else
        let rest := piLoopL func tolerance n b b.center
        (rest.1, log ++ rest.2)

/-- Logging variant of `bracket_pi_minimize`. -/
def bracket_pi_minimizeL (func : α → α) (x1 x2 x3 tolerance : α)
    (max_iter : Nat) : Except BracketPIOptimizerError α × List α :=
  if tolerance < 0 then (.error .InvalidTolerance, [])
  else
    match Bracket.newL x1 x2 x3 func with
    | (.error e, log) => (.error (.BracketError e), log)
    | (.ok bounds, log) =>
      let rest := piLoopL func tolerance max_iter bounds (bounds.f_center + tolerance)
      (rest.1, log ++ rest.2)

end Embedding

section ConcreteObjectives

/-- Concrete objective `x ↦ x·x`, used as a simple valid-bracket objective. -/
def fsq : ℚ → ℚ := fun x => x * x

/-- Concrete objective `f(x) = x⁴ − 2x³ + 4` from the repository's tests and
doc examples. -/
def fQ : ℚ → ℚ := fun x => x ^ 4 - 2 * x ^ 3 + 4

/-- Concrete table objective with a dip at `1` and a lower value at `-1`,
outside the initial bracket `(0, 1, 2)`. -/
def fC1 : ℚ → ℚ := fun x =>
  if x = 0 then 5 else if x = 1 then 1 else if x = 2 then 5
  else if x = -1 then 0 else 100

/-- Concrete table objective for a `bracket_ratio_minimize` run from
`(0, 1, 3)` with ratio `2`: the trial points are `2`, `1/2`, `3/2`, `5/4`
in that order. -/
def fC6 : ℚ → ℚ := fun x =>
  if x = 0 then 10 else if x = 1 then 5 else if x = 3 then 10
  else if x = 2 then 6 else if x = 1/2 then 27/5 else if x = 3/2 then 4
  else if x = 5/4 then 3 else 100

/-- Concrete table objective for a `bracket_pi_minimize` run from
`(0, 1, 3)`: the parabolic-interpolation trial points are `3/2` and
`11/10` in that order. -/
def fC7 : ℚ → ℚ := fun x =>
  if x = 0 then 10 else if x = 1 then 2 else if x = 3 then 10
  else if x = 3/2 then 3 else if x = 11/10 then 1 else 100

/-- Concrete objective whose symmetric bracket `(0, 1, 2)` makes the
ratio-split trial point (ratio `1`) coincide with the center, so the fold
fails with `DupeBoundForBracket`. -/
def fW5 : ℚ → ℚ := fun x => if x = 1 then 5 else 10

/-- Concrete objective realizing the dead-end bracket `(0,6) (1,4) (2,6)`
from the source's comment: its parabolic vertex is the center itself, so
the fold fails with `DupeBoundForBracket`. -/
def fW5pi : ℚ → ℚ := fun x =>
  if x = 1 then 4 else if x = 0 then 6 else if x = 2 then 6 else 100

end ConcreteObjectives

section Lemmas

variable {α : Type*} [LinearOrderedField α]

/-- Helper: exact success condition of `new_processed`, with the resulting
field layout. -/
theorem new_processed_ok_iff (l fl c fc r fr : α) (b : Bracket α) :
    Bracket.new_processed l fl c fc r fr = .ok b ↔
      ¬(l = c ∨ c = r) ∧ (fc < fl ∧ fc < fr) ∧ b = ⟨l, fl, r, fr, c, fc⟩ := by
  unfold Bracket.new_processed
  split_ifs with h1 h2
  · simp [h1]
  · simp only [h1, h2, not_false_iff, true_and, and_true, Except.ok.injEq]
    exact eq_comm
  · simp only [h1, not_false_iff, true_and]
    constructor
    · intro h
      cases h
    · rintro ⟨⟨ha, hb⟩, -⟩
      exact absurd ⟨ha, hb⟩ h2

end Lemmas

section MainTheorems

variable {α : Type*} [LinearOrderedField α]

/-- C1 (counterexample): with the valid bracket built from `(0, 1, 2)` under
`fC1` (values `5, 1, 5`) and trial abscissa `-1` lying outside the interval
`(left, right)`, where `fC1 (-1) = 0 < f_center`, `longer_bound` returns
`Ok`, but the returned bracket has `center = -1 < left = 0`: the ordering
invariant `left < center < right` does not hold. -/
theorem longer_bound_order_violation :
    Bracket.new (0:ℚ) 1 2 fC1 = .ok ⟨0, 5, 2, 5, 1, 1⟩ ∧
    Bracket.longer_bound (⟨0, 5, 2, 5, 1, 1⟩ : Bracket ℚ) fC1 (-1) =
      .ok ⟨0, 5, 1, 1, -1, 0⟩ ∧
    ¬((⟨0, 5, 1, 1, -1, 0⟩ : Bracket ℚ).left <
        (⟨0, 5, 1, 1, -1, 0⟩ : Bracket ℚ).center) := by
  refine ⟨?_, ?_, by norm_num⟩ <;>
    norm_num [Bracket.new, sort3, Bracket.new_processed, Bracket.longer_bound, fC1]

/-- C1 (amended): whenever the input bracket satisfies the ordering
invariant `left < center < right` and the trial abscissa `new_val` lies
strictly inside `(left, right)`, every successful `longer_bound` result
again satisfies `left < center < right`. -/
theorem longer_bound_preserves_order (b : Bracket α) (func : α → α) (v : α)
    (b' : Bracket α) (hlc : b.left < b.center) (hcr : b.center < b.right)
    (hlv : b.left < v) (hvr : v < b.right)
    (h : b.longer_bound func v = .ok b') :
    b'.left < b'.center ∧ b'.center < b'.right := by
  unfold Bracket.longer_bound at h
  dsimp only at h
  split_ifs at h with h1 h2 h3
  · rw [new_processed_ok_iff] at h
    obtain ⟨-, -, rfl⟩ := h
    exact ⟨hlv, h1.2⟩
  · rw [new_processed_ok_iff] at h
    obtain ⟨-, -, rfl⟩ := h
    exact ⟨h2.2, hcr⟩
  · rw [new_processed_ok_iff] at h
    obtain ⟨-, -, rfl⟩ := h
    exact ⟨h3.2, hvr⟩
  · rw [new_processed_ok_iff] at h
    obtain ⟨hd, hdip, rfl⟩ := h
    refine ⟨hlc, ?_⟩
    have hcv : b.center ≠ v := fun hx => hd (Or.inr hx)
    have hge : ¬ v < b.center := fun hv => h2 ⟨hdip.2, hv⟩
    exact lt_of_le_of_ne (not_lt.mp hge) hcv

/-- C1 (witness): the amended theorem at the bracket `(0, 5) (1, 1) (2, 5)`
with interior trial abscissa `1/2` (`fC1 (1/2) = 100`). -/
theorem longer_bound_preserves_order_witness :
    (Bracket.mk (1/2:ℚ) 100 2 5 1 1).left < (Bracket.mk (1/2:ℚ) 100 2 5 1 1).center ∧
    (Bracket.mk (1/2:ℚ) 100 2 5 1 1).center < (Bracket.mk (1/2:ℚ) 100 2 5 1 1).right :=
  longer_bound_preserves_order ⟨0, 5, 2, 5, 1, 1⟩ fC1 (1/2) ⟨1/2, 100, 2, 5, 1, 1⟩
    (by norm_num) (by norm_num) (by norm_num) (by norm_num)
    (by norm_num [Bracket.longer_bound, Bracket.new_processed, fC1])

/-- C2 (counterexample): the sextuple `(0,0,0,0,0,0)` violates the dip
property (`¬(f_center < f_left ∧ f_center < f_right)`), yet `new_processed`
fails with `DupeBoundForBracket`, not `BracketNotADip`: the duplicate-bound
check takes precedence, so "every triple violating the dip property fails
with `BracketNotADip`" is false as stated. -/
theorem new_processed_dupe_precedence :
    ¬((0:ℚ) < 0 ∧ (0:ℚ) < 0) ∧
    Bracket.new_processed (0:ℚ) 0 0 0 0 0 = .error .DupeBoundForBracket ∧
    Bracket.new_processed (0:ℚ) 0 0 0 0 0 ≠ .error .BracketNotADip := by
  refine ⟨by norm_num, by norm_num [Bracket.new_processed], ?_⟩
  norm_num [Bracket.new_processed]
  intro h
  cases h

/-- C2 (amended): `new_processed` fails with `DupeBoundForBracket` exactly
when `left = center` or `center = right`; when neither equality holds it
fails with `BracketNotADip` exactly when the dip property fails; and it
succeeds (with the six input fields) exactly when neither equality holds
and the dip property holds.  In particular every dip-violating input with
`left ≠ center` and `center ≠ right` fails with `BracketNotADip`, and every
input with `left = center` or `center = right` fails with
`DupeBoundForBracket`. -/
theorem new_processed_characterization (l fl c fc r fr : α) :
    (Bracket.new_processed l fl c fc r fr = .error .DupeBoundForBracket ↔
      (l = c ∨ c = r)) ∧
    (Bracket.new_processed l fl c fc r fr = .error .BracketNotADip ↔
      (¬(l = c ∨ c = r) ∧ ¬(fc < fl ∧ fc < fr))) ∧
    (Bracket.new_processed l fl c fc r fr = .ok ⟨l, fl, r, fr, c, fc⟩ ↔
      (¬(l = c ∨ c = r) ∧ (fc < fl ∧ fc < fr))) := by
  unfold Bracket.new_processed
  split_ifs with h1 h2 <;> simp_all

/-- C3 (counterexample): with `ratio = 1/2 < 1`, a nonnegative tolerance, a
valid initial bracket and `max_iter = 0`, `bracket_ratio_minimize` does not
fail at all — it returns `Ok 0` — because the ratio is only validated
inside the loop body, which never runs; so `InvalidRatio` is not raised at
entry. -/
theorem invalid_ratio_not_at_entry :
    ((1:ℚ)/2) < 1 ∧
    bracket_ratio_minimize fsq (-1) 0 1 (1/2) 1 0 = .ok 0 := by
  constructor
  · norm_num
  · norm_num [bracket_ratio_minimize, Bracket.new, sort3, Bracket.new_processed,
      ratioLoop, fsq]

/-- C3 (amended): `InvalidTolerance` (tolerance < 0) is raised at entry,
before any objective-function evaluation (the evaluation log is empty), in
the ratio, parabolic and golden-section minimizers; `InvalidRatio`
(ratio < 1) is raised not at entry but on the first loop iteration — the
evaluation log at that point already holds the three sorted initial
abscissas — whenever `max_iter ≥ 1` and the initial bracket is valid. -/
theorem param_error_timing :
    (∀ (func : ℚ → ℚ) (x1 x2 x3 r tol : ℚ) (mi : Nat), tol < 0 →
      bracket_ratio_minimizeL func x1 x2 x3 r tol mi = (.error .InvalidTolerance, [])) ∧
    (∀ (func : ℚ → ℚ) (x1 x2 x3 tol : ℚ) (mi : Nat), tol < 0 →
      bracket_pi_minimizeL func x1 x2 x3 tol mi = (.error .InvalidTolerance, [])) ∧
    (∀ (func : ℝ → ℝ) (x1 x2 x3 tol : ℝ) (mi : Nat), tol < 0 →
      bracket_gr_minimize func x1 x2 x3 tol mi = .error .InvalidTolerance) ∧
    (∀ (func : ℚ → ℚ) (x1 x2 x3 r tol : ℚ) (mi : Nat) (B : Bracket ℚ),
      0 ≤ tol → r < 1 → Bracket.new x1 x2 x3 func = .ok B →
      bracket_ratio_minimize func x1 x2 x3 r tol (mi + 1) = .error .InvalidRatio) ∧
    (∀ (func : ℚ → ℚ) (x1 x2 x3 r tol : ℚ) (mi : Nat) (B : Bracket ℚ),
      0 ≤ tol → r < 1 → Bracket.new x1 x2 x3 func = .ok B →
      bracket_ratio_minimizeL func x1 x2 x3 r tol (mi + 1) =
        (.error .InvalidRatio,
          [(sort3 x1 x2 x3).1, (sort3 x1 x2 x3).2.1, (sort3 x1 x2 x3).2.2])) := by
  refine ⟨?_, ?_, ?_, ?_, ?_⟩
  · intro func x1 x2 x3 r tol mi h
    simp [bracket_ratio_minimizeL, h]
  · intro func x1 x2 x3 tol mi h
    simp [bracket_pi_minimizeL, h]
  · intro func x1 x2 x3 tol mi h
    simp [bracket_gr_minimize, bracket_ratio_minimize, h]
  · intro func x1 x2 x3 r tol mi B htol hr hB
    unfold bracket_ratio_minimize
    rw [if_neg (not_lt.mpr htol), hB]
    unfold ratioLoop single_bracket_minimize
    rw [if_pos hr]
  · intro func x1 x2 x3 r tol mi B htol hr hB
    have hB' : Bracket.new_processed (sort3 x1 x2 x3).1 (func (sort3 x1 x2 x3).1)
        (sort3 x1 x2 x3).2.1 (func (sort3 x1 x2 x3).2.1)
        (sort3 x1 x2 x3).2.2 (func (sort3 x1 x2 x3).2.2) = .ok B := hB
    unfold bracket_ratio_minimizeL Bracket.newL
    rw [if_neg (not_lt.mpr htol)]
    dsimp only
    rw [hB']
    dsimp only
    unfold ratioLoopL single_bracket_minimizeL
    rw [if_pos hr]
    simp

/-- C3 (witness): the amended theorem at `tolerance = -1` (error with an
empty evaluation log) and at `ratio = 1/2`, `max_iter = 1` with the valid
bracket from `(-1, 0, 1)` under `x ↦ x·x`. -/
theorem param_error_timing_witness :
    bracket_ratio_minimizeL fsq (-1) 0 1 2 (-1) 5 = (.error .InvalidTolerance, []) ∧
    bracket_ratio_minimize fsq (-1) 0 1 (1/2) 1 1 = .error .InvalidRatio :=
  ⟨param_error_timing.1 fsq (-1) 0 1 2 (-1) 5 (by norm_num),
   param_error_timing.2.2.2.1 fsq (-1) 0 1 (1/2) 1 0 ⟨-1, 1, 1, 1, 0, 0⟩
     (by norm_num) (by norm_num)
     (by norm_num [Bracket.new, sort3, Bracket.new_processed, fsq])⟩

/-- C4: `longer_bound` decides the next bracket by the two strict
comparisons "is the new value lower than the center value" and "is the new
abscissa left of the center", and in each of the four cases passes exactly
the stated sextuple through the validated constructor `new_processed`:
lower & left → `(left, new_val, center)`; higher & left →
`(new_val, center, right)`; lower & right → `(center, new_val, right)`;
higher & right → `(left, center, new_val)`. -/
theorem longer_bound_cases (b : Bracket α) (func : α → α) (v : α) :
    (func v < b.f_center ∧ v < b.center →
      b.longer_bound func v =
        Bracket.new_processed b.left b.f_left v (func v) b.center b.f_center) ∧
    (func v > b.f_center ∧ v < b.center →
      b.longer_bound func v =
        Bracket.new_processed v (func v) b.center b.f_center b.right b.f_right) ∧
    (func v < b.f_center ∧ v > b.center →
      b.longer_bound func v =
        Bracket.new_processed b.center b.f_center v (func v) b.right b.f_right) ∧
    (func v > b.f_center ∧ v > b.center →
      b.longer_bound func v =
        Bracket.new_processed b.left b.f_left b.center b.f_center v (func v)) := by
  unfold Bracket.longer_bound
  dsimp only
  refine ⟨fun h => ?_, fun h => ?_, fun h => ?_, fun h => ?_⟩
  · rw [if_pos h]
  · rw [if_neg (fun hc => lt_asymm h.1 hc.1), if_pos h]
  · rw [if_neg (fun hc => lt_asymm h.2 hc.2), if_neg (fun hc => lt_asymm h.1 hc.1),
      if_pos h]
  · rw [if_neg (fun hc => lt_asymm h.1 hc.1), if_neg (fun hc => lt_asymm h.2 hc.2),
      if_neg (fun hc => lt_asymm h.1 hc.1)]

/-- C4 (witness): the first case at the bracket `(0, 5) (1, 1) (2, 5)`
under `fC1` with trial abscissa `-1` (`fC1 (-1) = 0`, lower and left of the
center). -/
theorem longer_bound_cases_witness :
    Bracket.longer_bound (⟨0, 5, 2, 5, 1, 1⟩ : Bracket ℚ) fC1 (-1) =
      Bracket.new_processed (0:ℚ) 5 (-1) (fC1 (-1)) 1 1 :=
  (longer_bound_cases ⟨0, 5, 2, 5, 1, 1⟩ fC1 (-1)).1 (by norm_num [fC1])

/-- C5: when the fold fails with a structural bracket error, the
ratio/golden-section loop body stops and returns `Ok` with the center of
the last valid bracket, whereas the parabolic-interpolation loop body
propagates the error to the caller. -/
theorem structural_error_policy :
    (∀ (func : α → α) (r tol old : α) (b : Bracket α) (n : Nat) (e : BracketError),
      single_bracket_minimize func b r = .error (.BracketError e) →
      ratioLoop func r tol (n + 1) b old = .ok b.center) ∧
    (∀ (func : α → α) (tol old : α) (b : Bracket α) (n : Nat) (e : BracketError),
      b.longer_bound func b.parabolic_interpolation = .error e →
      piLoop func tol (n + 1) b old = .error (.BracketError e)) := by
  constructor
  · intro func r tol old b n e h
    unfold ratioLoop
    rw [h]
  · intro func tol old b n e h
    unfold piLoop
    rw [h]

/-- C5 (witness): the ratio loop at a symmetric bracket whose trial point
collides with the center returns `Ok 1` (the current center); the
parabolic-interpolation loop at the dead-end bracket `(0,6) (1,4) (2,6)`
returns the structural error itself. -/
theorem structural_error_policy_witness :
    ratioLoop fW5 1 1 1 ⟨0, 10, 2, 10, 1, 5⟩ 0 = .ok 1 ∧
    piLoop fW5pi (1/100) 1 ⟨0, 6, 2, 6, 1, 4⟩ 0 =
      .error (.BracketError .DupeBoundForBracket) :=
  ⟨structural_error_policy.1 fW5 1 1 0 ⟨0, 10, 2, 10, 1, 5⟩ 0 .DupeBoundForBracket
     (by norm_num [single_bracket_minimize, Bracket.longer_bound,
        Bracket.new_val_from_ratio, Bracket.new_processed, fW5]),
   structural_error_policy.2 fW5pi (1/100) 0 ⟨0, 6, 2, 6, 1, 4⟩ 0 .DupeBoundForBracket
     (by norm_num [Bracket.longer_bound, Bracket.parabolic_interpolation,
        Bracket.new_processed, fW5pi])⟩

/-- C6 (code evaluation at the failing input): running
`bracket_ratio_minimize` on `fC6` from `(0, 1, 3)` with ratio `2` and
tolerance `1/2`: iterations 1 and 2 produce brackets whose center values
are both `5`, so `|previous − new| = 0 < 1/2` and per the claim the loop
would stop at iteration 2 and return its center `1`; the code instead
stores the center abscissa in `old_val` (`old_val = bounds.center`),
compares `|1 − 5| ≥ 1/2`, keeps iterating, and returns `5/4 ≠ 1`. -/
theorem ratio_loop_stop_divergence :
    Bracket.new (0:ℚ) 1 3 fC6 = .ok ⟨0, 10, 3, 10, 1, 5⟩ ∧
    single_bracket_minimize fC6 ⟨0, 10, 3, 10, 1, 5⟩ 2 = .ok ⟨0, 10, 2, 6, 1, 5⟩ ∧
    single_bracket_minimize fC6 ⟨0, 10, 2, 6, 1, 5⟩ 2 = .ok ⟨1/2, 27/5, 2, 6, 1, 5⟩ ∧
    sabs ((⟨0, 10, 2, 6, 1, 5⟩ : Bracket ℚ).f_center -
      (⟨1/2, 27/5, 2, 6, 1, 5⟩ : Bracket ℚ).f_center) < 1/2 ∧
    (⟨1/2, 27/5, 2, 6, 1, 5⟩ : Bracket ℚ).center = 1 ∧
    bracket_ratio_minimize fC6 0 1 3 2 (1/2) 4 = .ok (5/4) ∧
    ((5:ℚ)/4) ≠ 1 := by
  refine ⟨?_, ?_, ?_, by norm_num [sabs], by norm_num, ?_, by norm_num⟩ <;>
    norm_num [Bracket.new, sort3, Bracket.new_processed, bracket_ratio_minimize,
      ratioLoop, single_bracket_minimize, Bracket.longer_bound,
      Bracket.new_val_from_ratio, sabs, fC6]

/-- C7 (code evaluation at the failing input): running
`bracket_pi_minimize` on `fC7` from `(0, 1, 3)` with tolerance `1/2` and
`max_iter = 2`: the two loop iterations produce center values `2` and then
`1` — not identical — yet the code returns `DeadEnd`, because after
iteration 1 `old_val` holds the center abscissa `1` (`old_val =
bounds.center`), which happens to equal iteration 2's center value `1`. -/
theorem pi_dead_end_divergence :
    Bracket.new (0:ℚ) 1 3 fC7 = .ok ⟨0, 10, 3, 10, 1, 2⟩ ∧
    Bracket.longer_bound (⟨0, 10, 3, 10, 1, 2⟩ : Bracket ℚ) fC7
      (Bracket.parabolic_interpolation (⟨0, 10, 3, 10, 1, 2⟩ : Bracket ℚ)) =
      .ok ⟨0, 10, 3/2, 3, 1, 2⟩ ∧
    Bracket.longer_bound (⟨0, 10, 3/2, 3, 1, 2⟩ : Bracket ℚ) fC7
      (Bracket.parabolic_interpolation (⟨0, 10, 3/2, 3, 1, 2⟩ : Bracket ℚ)) =
      .ok ⟨1, 2, 3/2, 3, 11/10, 1⟩ ∧
    (⟨0, 10, 3/2, 3, 1, 2⟩ : Bracket ℚ).f_center ≠
      (⟨1, 2, 3/2, 3, 11/10, 1⟩ : Bracket ℚ).f_center ∧
    bracket_pi_minimize fC7 0 1 3 (1/2) 2 = .error .DeadEnd := by
  refine ⟨?_, ?_, ?_, by norm_num, ?_⟩ <;>
    norm_num [Bracket.new, sort3, Bracket.new_processed, bracket_pi_minimize,
      piLoop, Bracket.longer_bound, Bracket.parabolic_interpolation, sabs, fC7]

/-- C8: `bracket_gr_minimize` is exactly `bracket_ratio_minimize` invoked
with ratio `(√5 + 1)/2`, so for every objective function, initial triple,
tolerance and iteration budget the two return the same result — the same
`Ok` value or the same error — and in particular converge to the same
point on any objective, strictly convex ones included. -/
theorem gr_minimize_eq_ratio_minimize_golden (func : ℝ → ℝ)
    (x1 x2 x3 tol : ℝ) (mi : Nat) :
    bracket_gr_minimize func x1 x2 x3 tol mi =
      bracket_ratio_minimize func x1 x2 x3 ((Real.sqrt 5 + 1) / 2) tol mi := rfl

/-- C9: `parabolic_interpolation` applies the closed-form three-point
vertex formula to the bracket built (sorted, then validated) from its
three abscissas; on `f(x) = x⁴ − 2x³ + 4` at `(1/2, 1, 2)` it returns
exactly `17/14` in exact arithmetic — the value whose 64-bit float
representation prints as `1.2142857142857142`; the final conjunct bounds
the distance between `17/14` and that decimal literal by `10⁻¹⁶`. -/
theorem parabolic_interpolation_formula :
    (∀ (func : ℚ → ℚ) (x1 x2 x3 : ℚ) (B : Bracket ℚ),
      Bracket.new x1 x2 x3 func = .ok B →
      parabolic_interpolation func x1 x2 x3 =
        .ok (((B.f_right - B.f_center) * (B.center ^ 2 - B.left ^ 2)
              + (B.f_left - B.f_center) * (B.right ^ 2 - B.center ^ 2))
          / (2 * ((B.f_right - B.f_center) * (B.center - B.left)
              + (B.f_left - B.f_center) * (B.right - B.center))))) ∧
    parabolic_interpolation fQ (1/2) 1 2 = .ok (17/14) ∧
    sabs ((17:ℚ)/14 - 12142857142857142 / 10 ^ 16) < 1 / 10 ^ 16 := by
  refine ⟨?_, ?_, ?_⟩
  · intro func x1 x2 x3 B hB
    unfold parabolic_interpolation
    rw [hB]
    rfl
  · norm_num [parabolic_interpolation, Bracket.new, sort3, Bracket.new_processed,
      Bracket.parabolic_interpolation, fQ]
  · norm_num [sabs]

/-- C9 (witness): the formula part applied at `fQ` on `(1/2, 1, 2)`, whose
bracket is `(1/2, 61/16) (1, 3) (2, 4)`. -/
theorem parabolic_interpolation_formula_witness :
    parabolic_interpolation fQ (1/2) 1 2 =
      .ok ((((4:ℚ) - 3) * (1 ^ 2 - (1/2) ^ 2) + ((61/16 : ℚ) - 3) * (2 ^ 2 - 1 ^ 2))
        / (2 * (((4:ℚ) - 3) * (1 - 1/2) + ((61/16 : ℚ) - 3) * (2 - 1)))) :=
  parabolic_interpolation_formula.1 fQ (1/2) 1 2 ⟨1/2, 61/16, 2, 4, 1, 3⟩
    (by norm_num [Bracket.new, sort3, Bracket.new_processed, fQ])

/-- C10: with `max_iter = 0`, a nonnegative tolerance, a ratio ≥ 1 and a
valid initial bracket, both `bracket_ratio_minimize` and
`bracket_pi_minimize` return `Ok` with the center abscissa of the initial
sorted, validated bracket; the objective-evaluation log is exactly the
three sorted initial abscissas — three evaluations, and no trial point is
ever computed. -/
theorem zero_max_iter_behavior (func : ℚ → ℚ) (x1 x2 x3 r tol : ℚ)
    (B : Bracket ℚ) (htol : 0 ≤ tol) (hr : 1 ≤ r)
    (hB : Bracket.new x1 x2 x3 func = .ok B) :
    bracket_ratio_minimizeL func x1 x2 x3 r tol 0 =
      (.ok B.center,
        [(sort3 x1 x2 x3).1, (sort3 x1 x2 x3).2.1, (sort3 x1 x2 x3).2.2]) ∧
    bracket_pi_minimizeL func x1 x2 x3 tol 0 =
      (.ok B.center,
        [(sort3 x1 x2 x3).1, (sort3 x1 x2 x3).2.1, (sort3 x1 x2 x3).2.2]) ∧
    bracket_ratio_minimize func x1 x2 x3 r tol 0 = .ok B.center ∧
    bracket_pi_minimize func x1 x2 x3 tol 0 = .ok B.center := by
  have hB' : Bracket.new_processed (sort3 x1 x2 x3).1 (func (sort3 x1 x2 x3).1)
      (sort3 x1 x2 x3).2.1 (func (sort3 x1 x2 x3).2.1)
      (sort3 x1 x2 x3).2.2 (func (sort3 x1 x2 x3).2.2) = .ok B := hB
  refine ⟨?_, ?_, ?_, ?_⟩
  · unfold bracket_ratio_minimizeL Bracket.newL
    rw [if_neg (not_lt.mpr htol)]
    dsimp only
    rw [hB']
    simp [ratioLoopL]
  · unfold bracket_pi_minimizeL Bracket.newL
    rw [if_neg (not_lt.mpr htol)]
    dsimp only
    rw [hB']
    simp [piLoopL]
  · unfold bracket_ratio_minimize
    rw [if_neg (not_lt.mpr htol), hB]
    rfl
  · unfold bracket_pi_minimize
    rw [if_neg (not_lt.mpr htol), hB]
    rfl

/-- C10 (witness): the theorem at `x ↦ x·x` on the triple `(1, -1, 0)`
(sorted to `(-1, 0, 1)`), ratio `3/2`, tolerance `1`. -/
theorem zero_max_iter_behavior_witness :
    bracket_ratio_minimizeL fsq 1 (-1) 0 (3/2) 1 0 = (.ok 0, [-1, 0, 1]) ∧
    bracket_pi_minimizeL fsq 1 (-1) 0 1 0 = (.ok 0, [-1, 0, 1]) ∧
    bracket_ratio_minimize fsq 1 (-1) 0 (3/2) 1 0 = .ok 0 ∧
    bracket_pi_minimize fsq 1 (-1) 0 1 0 = .ok 0 := by
  obtain ⟨h1, h2, h3, h4⟩ :=
    zero_max_iter_behavior fsq 1 (-1) 0 (3/2) 1 ⟨-1, 1, 1, 1, 0, 0⟩
      (by norm_num) (by norm_num)
      (by norm_num [Bracket.new, sort3, Bracket.new_processed, fsq])
  refine ⟨?_, ?_, ?_, ?_⟩
  · rw [h1]; norm_num [sort3]
  · rw [h2]; norm_num [sort3]
  · rw [h3]
  · rw [h4]

end MainTheorems

end Mathslib
